import Mathlib

/-
  Verification of the enemy behavior & combat state machine of
  Synthpocalypse-Now (src/enemy_damage.js, src/enemy_movement.js,
  src/bullet_origin_fix.js).

  The JavaScript modules keep their state in module-level records and
  mutate them in place; here every function is embedded as a pure state
  transformer.  JS numbers are modelled as rationals (all arithmetic in
  these modules is exact: additions, subtractions, max, division by
  constants), timers and counters as integers, `Math.random() < p` rolls
  as explicit boolean inputs, `Date.now()` as an explicit integer input,
  and possibly-absent JS values (undefined / null) as `Option`.
-/

set_option autoImplicit false

namespace Synthpocalypse

/-! ## enemy_damage.js -/

namespace EnemyDamage

/-- `enemyHealthConfig.maxHealth` -/
def maxHealth : ℤ := 1000

/-- `enemyHealthConfig.damagePerLineBase` ("Base damage per line (1000/35)") -/
def damagePerLineBase : ℤ := 29

/-- The `enemyState` record of enemy_damage.js. -/
structure HealthState where
  currentHealth : ℤ
  totalDamageDealt : ℤ
  linesCompleted : ℤ
  lineCount : ℤ
  isDefeated : Bool
deriving DecidableEq, Repr

/-- The module-level initial value of `enemyState`. -/
def initialHealthState : HealthState :=
  { currentHealth := 1000, totalDamageDealt := 0, linesCompleted := 0,
    lineCount := 35, isDefeated := false }

/-- One entry of `lrcData.lyrics`; `text` may be absent. -/
structure Lyric where
  text : Option String
deriving DecidableEq, Repr

/-- The `lrcData` argument of `setCurrentTrack`; `lyrics` may be absent. -/
structure LrcData where
  lyrics : Option (List Lyric)
deriving DecidableEq, Repr

/-- Model of JS `String.prototype.trim`: drop whitespace from both ends.
(Defined structurally; `String.trim` from core is definitionally opaque to
the kernel because of its well-founded recursion.) -/
def jsTrim (s : String) : String :=
  String.mk ((s.data.dropWhile Char.isWhitespace).reverse.dropWhile Char.isWhitespace).reverse

/-- The per-line filter of `setCurrentTrack`:
`lyric.text && lyric.text.trim() !== ""` (a string is truthy iff non-empty). -/
def lyricHasText (l : Lyric) : Bool :=
  match l.text with
  | none => false
  | some s => s != "" && jsTrim s != ""

/-- `applyDamage(lineText, isSuccessful, ...)`: returns the new state and the
`damage` field of the returned record.  The `lineText`/`currentLyricText`
arguments are unused by the logic and omitted. -/
def applyDamage (s : HealthState) (isSuccessful : Bool) : HealthState × ℤ :=
  if s.isDefeated then (s, 0)
  else if !isSuccessful then (s, 0)
  else
    let lines := s.linesCompleted + 1
    -- "Check if this is the final line (35th line)"
    let isFinalLine : Bool := decide (lines ≥ 35)
    let damageAmount := if isFinalLine then max damagePerLineBase s.currentHealth
                        else damagePerLineBase
    let newHealth := max 0 (s.currentHealth - damageAmount)
    let s1 : HealthState :=
      { s with linesCompleted := lines, currentHealth := newHealth,
               totalDamageDealt := s.totalDamageDealt + damageAmount }
    if newHealth ≤ 0 then ({ s1 with isDefeated := true, currentHealth := 0 }, damageAmount)
    else (s1, damageAmount)

/-- `setCurrentTrack(lrcData)`. -/
def setCurrentTrack (s : HealthState) (lrcData : Option LrcData) : HealthState :=
  match lrcData with
  | none => s
  | some d =>
    match d.lyrics with
    | none => s
    | some ls =>
      if ls.length = 0 then s
      else { s with lineCount := (ls.countP lyricHasText : ℤ), linesCompleted := 0 }

/-- `resetEnemyDamageSystem()`. -/
def resetEnemyDamageSystem (s : HealthState) : HealthState :=
  { s with currentHealth := maxHealth, totalDamageDealt := 0,
           linesCompleted := 0, isDefeated := false }

/-- `n` consecutive successful `applyDamage` calls. -/
def applyDamageN (n : ℕ) (s : HealthState) : HealthState :=
  (fun t => (applyDamage t true).1)^[n] s

/-- The operations that mutate `enemyState`. -/
inductive DamageOp where
  | applyLine (isSuccessful : Bool)
  | setTrack (lrcData : Option LrcData)
  | reset
deriving DecidableEq, Repr

def runOp (s : HealthState) (op : DamageOp) : HealthState :=
  match op with
  | .applyLine b => (applyDamage s b).1
  | .setTrack d => setCurrentTrack s d
  | .reset => resetEnemyDamageSystem s

def runOps (s : HealthState) (ops : List DamageOp) : HealthState :=
  ops.foldl runOp s

/-- The state invariant of the health tracker: health is non-negative and
is zero exactly in the defeated state. -/
def HealthInv (s : HealthState) : Prop :=
  0 ≤ s.currentHealth ∧ (s.currentHealth = 0 ↔ s.isDefeated = true)

/-- A well-formed track whose lyric count differs from the hardcoded 35:
ten non-empty lines. -/
def tenLineTrack : LrcData := ⟨some (List.replicate 10 ⟨some "line"⟩)⟩

end EnemyDamage

/-! ## enemy_movement.js -/

namespace EnemyMovement

/-- `enemyConfig.moveSpeed` (0.15) -/
def moveSpeed : ℚ := 15/100
/-- `enemyConfig.minX` -/
def minX : ℚ := 10
/-- `enemyConfig.maxX` -/
def maxX : ℚ := 40
/-- `enemyConfig.initialPosition` -/
def initialPosition : ℚ := 30
/-- `enemyConfig.initialPositionY` (2.5) -/
def initialPositionY : ℚ := 5/2
/-- `enemyConfig.crouchDuration` (frames) -/
def crouchDuration : ℤ := 60
/-- `enemyConfig.crouchAmount` -/
def crouchAmount : ℚ := 10
/-- `enemyConfig.crouchScale` (1.4) -/
def crouchScale : ℚ := 7/5
/-- `enemyConfig.crouchPositionY` (-1.5) -/
def crouchPositionY : ℚ := -(3/2)
/-- `enemyConfig.pauseDuration` (frames) -/
def pauseDuration : ℤ := 60

/-- A THREE mesh as far as this module reads/writes it: a position and the
`userData.originalY` slot (absent until first recorded). -/
structure Part where
  x : ℚ
  y : ℚ
  z : ℚ
  baseY : Option ℚ
deriving DecidableEq, Repr

/-- The enemy model object: `position.x`, `position.y`, `scale.y`. -/
structure EnemyObj where
  x : ℚ
  y : ℚ
  scaleY : ℚ
deriving DecidableEq, Repr

/-- The `enemyState` record of enemy_movement.js.  The references stored in
`bodyParts` are modelled by value: every later read/write of a tracked part
goes through this record. -/
structure MoveState where
  direction : ℤ
  isCrouching : Bool
  crouchTimer : ℤ
  isPaused : Bool
  pauseTimer : ℤ
  originalScale : ℚ
  originalY : ℚ
  head : Option Part
  body : Option Part
  weapon : Option Part
  legs : List Part
deriving DecidableEq, Repr

/-- The module-level initial value of `enemyState`. -/
def initialMoveState : MoveState :=
  { direction := -1, isCrouching := false, crouchTimer := 0,
    isPaused := false, pauseTimer := 0, originalScale := 1, originalY := 0,
    head := none, body := none, weapon := none, legs := [] }

/-- JS truthiness of `userData.originalY`: false when absent or zero. -/
def truthyBase (o : Option ℚ) : Bool :=
  match o with
  | none => false
  | some v => v != 0

/-- The per-part body of `maintainCrouchState`:
`if (part && part.userData.originalY) part.position.y = part.userData.originalY - amount`. -/
def crouchPart (amount : ℚ) (op : Option Part) : Option Part :=
  match op with
  | none => none
  | some p =>
    if truthyBase p.baseY then some { p with y := p.baseY.getD 0 - amount }
    else some p

/-- The per-part body of `startCrouching`:
`if (part && !part.userData.originalY) part.userData.originalY = part.position.y`. -/
def recordBase (op : Option Part) : Option Part :=
  match op with
  | none => none
  | some p =>
    if truthyBase p.baseY then some p
    else some { p with baseY := some p.y }

/-- The per-part body of `stopCrouching`:
`if (part && part.userData.originalY !== undefined) part.position.y = part.userData.originalY`. -/
def restorePart (op : Option Part) : Option Part :=
  match op with
  | none => none
  | some p =>
    match p.baseY with
    | some b => some { p with y := b }
    | none => some p

/-- `maintainCrouchState(enemy)`. -/
def maintainCrouchState (e : EnemyObj) (s : MoveState) : EnemyObj × MoveState :=
  let e1 : EnemyObj :=
    { e with scaleY := s.originalScale / crouchScale,
             y := initialPositionY + crouchPositionY }
  let s1 : MoveState :=
    { s with head := crouchPart crouchAmount s.head,
             body := crouchPart (crouchAmount * (8/10)) s.body,
             weapon := crouchPart (crouchAmount * (8/10)) s.weapon }
  (e1, s1)

/-- `startCrouching(enemy)`. -/
def startCrouching (e : EnemyObj) (s : MoveState) : EnemyObj × MoveState :=
  let s1 : MoveState :=
    { s with isCrouching := true, crouchTimer := crouchDuration,
             head := recordBase s.head, body := recordBase s.body,
             weapon := recordBase s.weapon }
  maintainCrouchState e s1

/-- `stopCrouching(enemy)`. -/
def stopCrouching (e : EnemyObj) (s : MoveState) : EnemyObj × MoveState :=
  let s1 : MoveState :=
    { s with isCrouching := false,
             head := restorePart s.head, body := restorePart s.body,
             weapon := restorePart s.weapon }
  let e1 : EnemyObj := { e with scaleY := s.originalScale, y := initialPositionY }
  (e1, s1)

/-- `handleCrouching(enemy)`; `crouchRoll` is the outcome of
`Math.random() < enemyConfig.crouchProbability`. -/
def handleCrouching (e : EnemyObj) (s : MoveState) (crouchRoll : Bool) :
    EnemyObj × MoveState :=
  let p1 := if !s.isCrouching && crouchRoll then startCrouching e s else (e, s)
  if p1.2.isCrouching then
    let p2 := maintainCrouchState p1.1 p1.2
    let s3 : MoveState := { p2.2 with crouchTimer := p2.2.crouchTimer - 1 }
    if s3.crouchTimer ≤ 0 then stopCrouching p2.1 s3 else (p2.1, s3)
  else p1

/-- The outcomes of the three `Math.random()` comparisons a tick can make. -/
structure Rolls where
  crouchRoll : Bool
  pauseRoll : Bool
  dirRoll : Bool
deriving DecidableEq, Repr

/-- Step 1 of `updateEnemyMovement`: pin `position.y` (and `originalY`) to the
standing value when not crouching. -/
def pinStandingY (e : EnemyObj) (s : MoveState) : EnemyObj × MoveState :=
  if !s.isCrouching then
    ({ e with y := initialPositionY }, { s with originalY := initialPositionY })
  else (e, s)

/-- `updateEnemyMovement(enemy, deltaTime)` for a present enemy.
(`deltaTime` is unused by the source.) -/
def updateEnemyMovementSome (e : EnemyObj) (s : MoveState) (r : Rolls) :
    EnemyObj × MoveState :=
  let p0 := pinStandingY e s
  let p1 := handleCrouching p0.1 p0.2 r.crouchRoll
  if p1.2.isPaused then
    let s2 : MoveState := { p1.2 with pauseTimer := p1.2.pauseTimer - 1 }
    if s2.pauseTimer ≤ 0 then (p1.1, { s2 with isPaused := false })
    else (p1.1, s2)
  else if r.pauseRoll then
    (p1.1, { p1.2 with isPaused := true, pauseTimer := pauseDuration })
  else
    let s2 : MoveState :=
      if r.dirRoll then { p1.2 with direction := -p1.2.direction } else p1.2
    if s2.direction = -1 then
      let x1 := p1.1.x - moveSpeed
      if x1 ≤ minX then ({ p1.1 with x := minX }, { s2 with direction := 1 })
      else ({ p1.1 with x := x1 }, s2)
    else
      let x1 := p1.1.x + moveSpeed
      if x1 ≥ maxX then ({ p1.1 with x := maxX }, { s2 with direction := -1 })
      else ({ p1.1 with x := x1 }, s2)

/-- `updateEnemyMovement` including its `if (!enemy) return` guard. -/
def updateEnemyMovement (enemy : Option EnemyObj) (s : MoveState) (r : Rolls) :
    Option EnemyObj × MoveState :=
  match enemy with
  | none => (none, s)
  | some e =>
    let p := updateEnemyMovementSome e s r
    (some p.1, p.2)

/-- A child of the enemy model as read by `initEnemyMovement`. -/
structure Child where
  hasGeometry : Bool
  isGroup : Bool
  part : Part
deriving DecidableEq, Repr

/-- The enemy model handed to `initEnemyMovement`: the transform plus the
children being classified. -/
structure EnemyModel where
  obj : EnemyObj
  children : List Child
deriving DecidableEq, Repr

/-- Models `candidates.sort(descending by key)[0]`: the first maximal element
by `key` (JS sort is stable, so the earliest maximum wins). -/
def pickTop (key : Part → ℚ) (l : List Part) : Option Part :=
  l.foldl
    (fun acc p =>
      match acc with
      | none => some p
      | some q => if key p > key q then some p else some q)
    none

/-- `initEnemyMovement(enemy)`. -/
def initEnemyMovement (enemy : Option EnemyModel) (s : MoveState) :
    Option EnemyModel × MoveState :=
  match enemy with
  | none => (none, s)
  | some m =>
    let obj1 : EnemyObj := { m.obj with y := initialPositionY }
    let s1 : MoveState := { s with originalScale := obj1.scaleY, originalY := obj1.y }
    -- "Skip any non-mesh objects or groups"
    let cls := m.children.filter (fun c => c.hasGeometry && !c.isGroup)
    let headCands := (cls.filter (fun c => decide (c.part.y > 5))).map (fun c => c.part)
    let mids := cls.filter (fun c => !(decide (c.part.y > 5)) && decide (c.part.y > 0))
    let sideish := fun (p : Part) => decide (|p.x| > 3) || decide (|p.z| > 3)
    let weaponCands := ((mids.filter (fun c => sideish c.part)).map (fun c => c.part))
    let bodyCands := ((mids.filter (fun c => !(sideish c.part))).map (fun c => c.part))
    let legCands := ((m.children.filter
        (fun c => c.hasGeometry && !c.isGroup && !(decide (c.part.y > 5)) &&
                  !(decide (c.part.y > 0)) && decide (c.part.y < 0))).map (fun c => c.part))
    let s2 : MoveState :=
      { s1 with
        head := match pickTop (fun p => p.y) headCands with
                | some p => some p
                | none => s1.head,
        body := match pickTop (fun p => p.y) bodyCands with
                | some p => some p
                | none => s1.body,
        weapon := match pickTop (fun p => |p.x|) weaponCands with
                  | some p => some p
                  | none => s1.weapon,
        legs := s1.legs ++ legCands }
    let obj2 : EnemyObj := { obj1 with x := initialPosition }
    (some { m with obj := obj2 }, s2)

/-- One tick of the crouch sub-machine with no fresh crouch roll. -/
def crouchStep (p : EnemyObj × MoveState) : EnemyObj × MoveState :=
  handleCrouching p.1 p.2 false

/-- A full crouch lifecycle: the entry tick (`crouchRoll` fires, setting
`crouchTimer = 60` and decrementing it to 59) followed by the 59 further
ticks that run the timer down to 0, the last of which calls
`stopCrouching`. -/
def crouchCycle (e : EnemyObj) (s : MoveState) : EnemyObj × MoveState :=
  crouchStep^[59] (handleCrouching e s true)

/-- The state a crouch run terminates in when started from `(e, s)` with the
crouch already entered: `stopCrouching` restores the scale and standing Y from
the recordings and each tracked part from its recorded base. -/
def crouchRunOut (e : EnemyObj) (s : MoveState) : EnemyObj × MoveState :=
  ({ e with scaleY := s.originalScale, y := initialPositionY },
   { s with isCrouching := false, crouchTimer := 0,
            head := restorePart s.head, body := restorePart s.body,
            weapon := restorePart s.weapon })

/-- The pose-relevant projection of a tick result: model Y and scale plus the
crouch sub-state and the tracked parts. -/
def poseView (p : EnemyObj × MoveState) :
    ℚ × ℚ × Bool × ℤ × Option Part × Option Part × Option Part :=
  (p.1.y, p.1.scaleY, p.2.isCrouching, p.2.crouchTimer, p.2.head, p.2.body, p.2.weapon)

/-- A tracked part agrees with its recording: either nothing truthy is
recorded yet (entry will record the current offset), or the recorded base
equals the part's current vertical offset. -/
def partRestorable (op : Option Part) : Bool :=
  match op with
  | none => true
  | some p =>
    match p.baseY with
    | none => true
    | some b => b == 0 || b == p.y

/-- A movement state caught mid-pause and mid-crouch, as left behind when a
round ends during those timers. -/
def staleMoveState : MoveState :=
  { initialMoveState with direction := 1, isCrouching := true, crouchTimer := 10,
                          isPaused := true, pauseTimer := 30 }

/-- A plain enemy transform at the configured spawn. -/
def spawnEnemyObj : EnemyObj := { x := 30, y := 5/2, scaleY := 1 }

/-- An enemy model with no classifiable children. -/
def bareEnemyModel : EnemyModel := { obj := spawnEnemyObj, children := [] }

/-- A movement state in the middle of a pause (30 frames remaining). -/
def pausedMoveState : MoveState :=
  { initialMoveState with isPaused := true, pauseTimer := 30 }

/-- A pose whose head carries a truthy recorded base (3) that differs from
the head's current vertical offset (5). -/
def mismatchedPose : MoveState :=
  { initialMoveState with head := some { x := 0, y := 5, z := 0, baseY := some 3 } }

/-- A pose with a fresh head, a torso whose base was recorded at its current
offset, and a weapon with a recorded zero base. -/
def consistentPose : MoveState :=
  { initialMoveState with
    head := some { x := 0, y := 6, z := 0, baseY := none },
    body := some { x := 0, y := 3, z := 0, baseY := some 3 },
    weapon := some { x := 5, y := 0, z := 0, baseY := some 0 } }

end EnemyMovement

/-! ## bullet_origin_fix.js -/

namespace BulletOrigin

structure Vec3 where
  x : ℚ
  y : ℚ
  z : ℚ
deriving DecidableEq, Repr

/-- `bulletOriginConfig.offsetX` (-11.5) -/
def offsetX : ℚ := -(23/2)
/-- `bulletOriginConfig.offsetY` (7.5) -/
def offsetY : ℚ := 15/2
/-- `bulletOriginConfig.crouchOffsetY` (-4.5) -/
def crouchOffsetY : ℚ := -(9/2)
/-- `bulletOriginConfig.shotCooldown` (ms) -/
def shotCooldown : ℤ := 1000
/-- `bulletOriginState.highThreshold` -/
def highThreshold : ℚ := 4

/-- The `bulletOriginState` record (without the debug marker). -/
structure OriginState where
  lastKnownPosition : Vec3
  lastShotHeight : Option Bool
  lastShotTime : ℤ
deriving DecidableEq, Repr

/-- What `updateBulletOriginPosition` reads from `EnemyMovement.state`:
the crouch flag, and the weapon part's world position when the weapon
reference is present. -/
structure MovementView where
  isCrouching : Bool
  weaponWorldPos : Option Vec3
deriving DecidableEq, Repr

/-- `updateBulletOriginPosition()`.  `enemyPos` is `enemy.position` when the
global `enemy` is defined and non-null; `em` is the `EnemyMovement.state`
view when that module is available.  Returns the computed origin and the
new state. -/
def updateBulletOriginPosition (enemyPos : Option Vec3) (em : Option MovementView)
    (st : OriginState) : Vec3 × OriginState :=
  match enemyPos with
  | none => (st.lastKnownPosition, st)
  | some p =>
    let o1 : Vec3 := { x := p.x + offsetX, y := p.y + offsetY, z := p.z }
    let o2 : Vec3 :=
      match em with
      | none => o1
      | some m =>
        let oa : Vec3 := if m.isCrouching then { o1 with y := o1.y + crouchOffsetY } else o1
        match m.weaponWorldPos with
        | none => oa
        | some w =>
          let ob : Vec3 := { oa with x := w.x - 9, y := w.y + 4 }
          if m.isCrouching then { ob with y := ob.y - 3 } else ob
    (o2, { st with lastKnownPosition := o2 })

/-- An origin state before any shot has been classified. -/
def freshOriginState : OriginState :=
  { lastKnownPosition := ⟨0, 0, 0⟩, lastShotHeight := none, lastShotTime := 0 }

/-- An origin state that last fired a high shot at time 100. -/
def highOriginState : OriginState :=
  { lastKnownPosition := ⟨0, 0, 0⟩, lastShotHeight := some true, lastShotTime := 100 }

/-- `canFireAtHeight(height)`; `now` is the value of `Date.now()`. -/
def canFireAtHeight (st : OriginState) (height : ℚ) (now : ℤ) :
    Bool × OriginState :=
  let isHighShot : Bool := decide (height ≥ highThreshold)
  match st.lastShotHeight with
  | none => (true, { st with lastShotHeight := some isHighShot, lastShotTime := now })
  | some wasHighShot =>
    if isHighShot = wasHighShot then
      (true, { st with lastShotTime := now })
    else if now - st.lastShotTime ≥ shotCooldown then
      (true, { st with lastShotHeight := some isHighShot, lastShotTime := now })
    else
      (false, st)

end BulletOrigin

/-! ## Theorems: health & defeat tracker -/

namespace EnemyDamage

theorem setCurrentTrack_preserves_health (s : HealthState) (d : Option LrcData) :
    (setCurrentTrack s d).currentHealth = s.currentHealth ∧
    (setCurrentTrack s d).totalDamageDealt = s.totalDamageDealt ∧
    (setCurrentTrack s d).isDefeated = s.isDefeated := by
  cases d with
  | none => exact ⟨rfl, rfl, rfl⟩
  | some dd =>
    cases hdl : dd.lyrics with
    | none => simp [setCurrentTrack, hdl]
    | some ls =>
      simp only [setCurrentTrack, hdl]
      split <;> simp

theorem applyDamage_health_mono (s : HealthState) (b : Bool)
    (h0 : 0 ≤ s.currentHealth) :
    (applyDamage s b).1.currentHealth ≤ s.currentHealth := by
  simp only [applyDamage, damagePerLineBase]
  split_ifs <;> dsimp only <;> omega

theorem applyDamage_inv (s : HealthState) (b : Bool)
    (h0 : 0 ≤ s.currentHealth)
    (hiff : s.currentHealth = 0 ↔ s.isDefeated = true) :
    0 ≤ (applyDamage s b).1.currentHealth ∧
    ((applyDamage s b).1.currentHealth = 0 ↔ (applyDamage s b).1.isDefeated = true) := by
  simp only [applyDamage, damagePerLineBase]
  split_ifs with h1 h2 h3 h4 h5
  · exact ⟨h0, hiff⟩
  · exact ⟨h0, hiff⟩
  · dsimp only; simp
  · dsimp only
    simp only [Bool.not_eq_true] at h1
    rw [h1]
    simp only [Bool.false_eq_true, iff_false]
    omega
  · dsimp only; simp
  · dsimp only
    simp only [Bool.not_eq_true] at h1
    rw [h1]
    simp only [Bool.false_eq_true, iff_false]
    omega

theorem healthInv_step (s : HealthState) (op : DamageOp) (h : HealthInv s) :
    HealthInv (runOp s op) := by
  obtain ⟨h0, hiff⟩ := h
  cases op with
  | reset =>
    refine ⟨by simp [runOp, resetEnemyDamageSystem, maxHealth], ?_⟩
    simp [runOp, resetEnemyDamageSystem, maxHealth]
  | setTrack d =>
    obtain ⟨hh, _, hd⟩ := setCurrentTrack_preserves_health s d
    exact ⟨by rw [runOp, hh]; exact h0, by rw [runOp, hh, hd]; exact hiff⟩
  | applyLine b =>
    exact applyDamage_inv s b h0 hiff

theorem healthInv_initial : HealthInv initialHealthState := by
  constructor <;> simp [initialHealthState]

theorem healthInv_runOps (s : HealthState) (ops : List DamageOp) (h : HealthInv s) :
    HealthInv (runOps s ops) := by
  induction ops generalizing s with
  | nil => exact h
  | cons op rest ih => exact ih (runOp s op) (healthInv_step s op h)

theorem defeated_persists_step (s : HealthState) (op : DamageOp)
    (hop : op ≠ DamageOp.reset) (hd : s.isDefeated = true) :
    (runOp s op).isDefeated = true := by
  cases op with
  | reset => exact absurd rfl hop
  | applyLine b => simp [runOp, applyDamage, hd]
  | setTrack d => rw [runOp, (setCurrentTrack_preserves_health s d).2.2]; exact hd

/-- C8: in every state reachable from the fresh health state by `applyDamage`,
`setCurrentTrack` and `resetEnemyDamageSystem` calls, `currentHealth = 0` holds
iff `isDefeated = true`; moreover any further non-reset operation never
increases `currentHealth` and never clears `isDefeated`. -/
theorem health_reachable_invariants (ops : List DamageOp) :
    ((runOps initialHealthState ops).currentHealth = 0 ↔
      (runOps initialHealthState ops).isDefeated = true) ∧
    (∀ op : DamageOp, op ≠ DamageOp.reset →
      (runOp (runOps initialHealthState ops) op).currentHealth ≤
        (runOps initialHealthState ops).currentHealth ∧
      ((runOps initialHealthState ops).isDefeated = true →
        (runOp (runOps initialHealthState ops) op).isDefeated = true)) := by
  obtain ⟨h0, hiff⟩ := healthInv_runOps initialHealthState ops healthInv_initial
  refine ⟨hiff, fun op hop => ⟨?_, fun hd => defeated_persists_step _ op hop hd⟩⟩
  cases op with
  | reset => exact absurd rfl hop
  | applyLine b => exact applyDamage_health_mono _ b h0
  | setTrack d => rw [runOp, (setCurrentTrack_preserves_health _ d).1]

/-- Witness for C8: after one successful line from the fresh state, a further
successful line (a non-reset operation) does not increase the health, and the
zero-health/defeated equivalence holds. -/
theorem health_reachable_invariants_witness :
    ((runOps initialHealthState [DamageOp.applyLine true]).currentHealth = 0 ↔
      (runOps initialHealthState [DamageOp.applyLine true]).isDefeated = true) ∧
    (runOp (runOps initialHealthState [DamageOp.applyLine true])
        (DamageOp.applyLine true)).currentHealth ≤
      (runOps initialHealthState [DamageOp.applyLine true]).currentHealth :=
  ⟨(health_reachable_invariants [DamageOp.applyLine true]).1,
   ((health_reachable_invariants [DamageOp.applyLine true]).2
      (DamageOp.applyLine true) (by decide)).1⟩

/-- C7: `applyDamage` is a no-op when the enemy is already defeated or the
call is not successful: it returns zero damage and leaves the whole state
(`currentHealth`, `totalDamageDealt`, `linesCompleted`, `isDefeated`)
unchanged. -/
theorem applyDamage_rejection_noop (s : HealthState) (b : Bool)
    (h : s.isDefeated = true ∨ b = false) :
    applyDamage s b = (s, 0) := by
  rcases h with h | h <;> simp [applyDamage, h]

/-- Witness for C7: an unsuccessful call on the fresh state changes nothing. -/
theorem applyDamage_rejection_noop_witness :
    applyDamage initialHealthState false = (initialHealthState, 0) :=
  applyDamage_rejection_noop initialHealthState false (Or.inr rfl)

/-- C10: `setCurrentTrack` with valid track data sets `lineCount` to the
number of lyric lines with non-empty (trimmed) text and resets
`linesCompleted` to 0, leaving every other field (`currentHealth`,
`totalDamageDealt`, `isDefeated`) unchanged; with missing or empty lyric
data it leaves the whole state untouched. -/
theorem setCurrentTrack_spec (s : HealthState) (d : LrcData) :
    (setCurrentTrack s none = s) ∧
    (d.lyrics = none → setCurrentTrack s (some d) = s) ∧
    (d.lyrics = some [] → setCurrentTrack s (some d) = s) ∧
    (∀ ls : List Lyric, d.lyrics = some ls → ls ≠ [] →
      setCurrentTrack s (some d) =
        { s with lineCount := (ls.countP lyricHasText : ℤ), linesCompleted := 0 }) := by
  refine ⟨rfl, ?_, ?_, ?_⟩
  · intro h; simp [setCurrentTrack, h]
  · intro h; simp [setCurrentTrack, h]
  · intro ls h hne
    simp [setCurrentTrack, h, List.length_eq_zero, hne]

/-- Witness for C10: a two-line track, one line with real text and one with
only whitespace, sets `lineCount = 1` and resets `linesCompleted`. -/
theorem setCurrentTrack_spec_witness :
    setCurrentTrack initialHealthState (some ⟨some [⟨some "la"⟩, ⟨some " "⟩]⟩) =
      { initialHealthState with lineCount := 1, linesCompleted := 0 } := by
  have h := (setCurrentTrack_spec initialHealthState ⟨some [⟨some "la"⟩, ⟨some " "⟩]⟩).2.2.2
      [⟨some "la"⟩, ⟨some " "⟩] rfl (by decide)
  rw [h]
  decide

theorem applyDamageN_succ (s : HealthState) (n : ℕ) :
    applyDamageN (n + 1) s = (applyDamage (applyDamageN n s) true).1 := by
  simp [applyDamageN, Function.iterate_succ_apply']

/-- The first `k ≤ 34` successful lines from a fresh reset each deal the
fixed 29 damage and never defeat the enemy. -/
theorem applyDamageN_fresh (s : HealthState) (k : ℕ) (hk : k ≤ 34) :
    applyDamageN k (resetEnemyDamageSystem s) =
      { currentHealth := 1000 - 29 * (k : ℤ), totalDamageDealt := 29 * (k : ℤ),
        linesCompleted := (k : ℤ), lineCount := s.lineCount, isDefeated := false } := by
  induction k with
  | zero => simp [applyDamageN, resetEnemyDamageSystem, maxHealth]
  | succ n ih =>
    have hn : n ≤ 34 := Nat.le_of_succ_le hk
    rw [applyDamageN_succ, ih hn]
    have hfin : ¬ ((n : ℤ) + 1 ≥ 35) := by omega
    have hhp : ¬ ((0 : ℤ) ⊔ (1000 - 29 * (n : ℤ) - 29) ≤ 0) := by omega
    simp only [applyDamage, damagePerLineBase]
    simp [hfin, hhp]
    omega

/-- The 35th successful line from a fresh reset depletes the health exactly
and defeats the enemy. -/
theorem applyDamageN_35 (s : HealthState) :
    applyDamageN 35 (resetEnemyDamageSystem s) =
      { currentHealth := 0, totalDamageDealt := 1015, linesCompleted := 35,
        lineCount := s.lineCount, isDefeated := true } := by
  have h34 := applyDamageN_fresh s 34 (le_refl 34)
  rw [applyDamageN_succ, h34]
  simp [applyDamage, damagePerLineBase]

/-- C1 (amended): damage and the final-line trigger use the hardcoded
constants 29 and 35, not the track-derived `lineCount`: every successful,
non-defeated call increments `linesCompleted`, deals exactly 29 while the
incremented count is below 35, and from count 35 on deals
`max 29 currentHealth ≥ currentHealth`; consequently 35 successful calls
from a fresh reset (34 of which leave positive health) end with
`currentHealth = 0` and `isDefeated = true`. -/
theorem applyDamage_hardcoded_final_line (s : HealthState)
    (hnd : s.isDefeated = false) :
    (s.linesCompleted + 1 < 35 → (applyDamage s true).2 = damagePerLineBase) ∧
    (35 ≤ s.linesCompleted + 1 →
      (applyDamage s true).2 = max damagePerLineBase s.currentHealth ∧
      s.currentHealth ≤ (applyDamage s true).2) ∧
    (applyDamage s true).1.linesCompleted = s.linesCompleted + 1 ∧
    (applyDamageN 34 (resetEnemyDamageSystem s)).currentHealth = 14 ∧
    (applyDamageN 34 (resetEnemyDamageSystem s)).isDefeated = false ∧
    (applyDamageN 35 (resetEnemyDamageSystem s)).currentHealth = 0 ∧
    (applyDamageN 35 (resetEnemyDamageSystem s)).isDefeated = true ∧
    (applyDamageN 35 (resetEnemyDamageSystem s)).linesCompleted = 35 := by
  have h34 := applyDamageN_fresh s 34 (le_refl 34)
  have h35 := applyDamageN_35 s
  refine ⟨?_, ?_, ?_, by rw [h34]; norm_num, by rw [h34], by rw [h35], by rw [h35],
    by rw [h35]⟩
  · intro hlt
    have hfin : decide (s.linesCompleted + 1 ≥ 35) = false := by
      rw [decide_eq_false_iff_not]; omega
    simp only [applyDamage, damagePerLineBase]
    rw [if_neg (by simp [hnd]), if_neg (by simp), hfin]
    simp only [Bool.false_eq_true, if_false]
    split_ifs <;> rfl
  · intro hge
    have hfin : decide (s.linesCompleted + 1 ≥ 35) = true := decide_eq_true hge
    simp only [applyDamage, damagePerLineBase]
    rw [if_neg (by simp [hnd]), if_neg (by simp), hfin]
    simp only [if_true]
    constructor
    · split_ifs <;> rfl
    · split_ifs <;> exact le_max_right _ _
  · simp only [applyDamage, damagePerLineBase]
    rw [if_neg (by simp [hnd]), if_neg (by simp)]
    split_ifs <;> rfl

/-- Witness for C1 (amended): applied to the fresh state: the first call deals
29, and 35 successful calls from a reset defeat the enemy at exactly zero. -/
theorem applyDamage_hardcoded_final_line_witness :
    (applyDamage initialHealthState true).2 = damagePerLineBase ∧
    (applyDamageN 35 (resetEnemyDamageSystem initialHealthState)).currentHealth = 0 ∧
    (applyDamageN 35 (resetEnemyDamageSystem initialHealthState)).isDefeated = true := by
  have h := applyDamage_hardcoded_final_line initialHealthState rfl
  exact ⟨h.1 (by decide), h.2.2.2.2.2.1, h.2.2.2.2.2.2.1⟩

/-- C1 counterexample: with a track of 10 non-empty lines
(`expectedLineCount = 10`), the 10 successful calls that complete the track
each deal only the fixed 29 damage — the 10th (final by the track's count)
deals 29, far below the remaining 739 health — and leave the enemy at 710
health and undefeated, contradicting the claimed exact depletion at
`expectedLineCount` lines. -/
theorem applyDamage_track_count_counterexample :
    (setCurrentTrack initialHealthState (some tenLineTrack)).lineCount = 10 ∧
    (applyDamageN 9 (setCurrentTrack initialHealthState (some tenLineTrack))).currentHealth = 739 ∧
    (applyDamage (applyDamageN 9 (setCurrentTrack initialHealthState (some tenLineTrack))) true).2 = 29 ∧
    (applyDamageN 10 (setCurrentTrack initialHealthState (some tenLineTrack))).linesCompleted =
      (setCurrentTrack initialHealthState (some tenLineTrack)).lineCount ∧
    (applyDamageN 10 (setCurrentTrack initialHealthState (some tenLineTrack))).currentHealth = 710 ∧
    (applyDamageN 10 (setCurrentTrack initialHealthState (some tenLineTrack))).isDefeated = false := by
  decide

end EnemyDamage

/-! ## Theorems: locomotion & pose controller -/

namespace EnemyMovement

theorem pinStandingY_frame (e : EnemyObj) (s : MoveState) :
    (pinStandingY e s).1.x = e.x ∧
    (pinStandingY e s).2.direction = s.direction ∧
    (pinStandingY e s).2.isPaused = s.isPaused ∧
    (pinStandingY e s).2.pauseTimer = s.pauseTimer ∧
    (pinStandingY e s).2.isCrouching = s.isCrouching := by
  simp only [pinStandingY]
  split_ifs <;> simp

theorem handleCrouching_frame (e : EnemyObj) (s : MoveState) (roll : Bool) :
    (handleCrouching e s roll).1.x = e.x ∧
    (handleCrouching e s roll).2.direction = s.direction ∧
    (handleCrouching e s roll).2.isPaused = s.isPaused ∧
    (handleCrouching e s roll).2.pauseTimer = s.pauseTimer := by
  simp only [handleCrouching, startCrouching, maintainCrouchState, stopCrouching]
  split_ifs <;> simp

theorem preMove_frame (e : EnemyObj) (s : MoveState) (roll : Bool) :
    (handleCrouching (pinStandingY e s).1 (pinStandingY e s).2 roll).1.x = e.x ∧
    (handleCrouching (pinStandingY e s).1 (pinStandingY e s).2 roll).2.direction = s.direction ∧
    (handleCrouching (pinStandingY e s).1 (pinStandingY e s).2 roll).2.isPaused = s.isPaused ∧
    (handleCrouching (pinStandingY e s).1 (pinStandingY e s).2 roll).2.pauseTimer
      = s.pauseTimer := by
  obtain ⟨p1, p2, p3, p4, _⟩ := pinStandingY_frame e s
  obtain ⟨h1, h2, h3, h4⟩ := handleCrouching_frame (pinStandingY e s).1 (pinStandingY e s).2 roll
  exact ⟨by rw [h1, p1], by rw [h2, p2], by rw [h3, p3], by rw [h4, p4]⟩

/-- C3: from any state with `positionX ∈ [minX, maxX]`, one tick keeps
`positionX` in `[minX, maxX]`; and on a moving tick (not paused, no fresh
pause roll) a tick that ends on a boundary has reversed away from it:
at `minX` the direction is 1 (right), at `maxX` it is -1 (left) —
regardless of the direction-change roll made earlier in the tick. -/
theorem positionX_bounded_and_bounces (e : EnemyObj) (s : MoveState) (r : Rolls)
    (hlo : minX ≤ e.x) (hhi : e.x ≤ maxX) :
    (minX ≤ (updateEnemyMovementSome e s r).1.x ∧
     (updateEnemyMovementSome e s r).1.x ≤ maxX) ∧
    (s.isPaused = false → r.pauseRoll = false →
      ((updateEnemyMovementSome e s r).1.x = minX →
        (updateEnemyMovementSome e s r).2.direction = 1) ∧
      ((updateEnemyMovementSome e s r).1.x = maxX →
        (updateEnemyMovementSome e s r).2.direction = -1)) := by
  obtain ⟨hx, hd, hp, ht⟩ := preMove_frame e s r.crouchRoll
  simp only [updateEnemyMovementSome]
  generalize hq : handleCrouching (pinStandingY e s).1 (pinStandingY e s).2 r.crouchRoll = q
    at hx hd hp ht ⊢
  obtain ⟨e1, s1⟩ := q
  dsimp only at hx hd hp ht ⊢
  rw [← hx] at hlo hhi
  simp only [moveSpeed, minX, maxX] at hlo hhi ⊢
  constructor
  · split_ifs <;> dsimp only <;> constructor <;> linarith
  · intro hpaused hroll
    rw [hpaused] at hp
    simp only [hp, hroll, Bool.false_eq_true, if_false]
    split_ifs with h1 h2 h3 h4 <;> dsimp only <;> constructor <;> intro hb <;>
      first
        | rfl
        | linarith

/-- Witness for C3: from the spawn position (x = 30) on a roll-free tick, the
position stays inside the band and the boundary implications hold. -/
theorem positionX_bounded_and_bounces_witness :
    (minX ≤ (updateEnemyMovementSome spawnEnemyObj initialMoveState ⟨false, false, false⟩).1.x ∧
     (updateEnemyMovementSome spawnEnemyObj initialMoveState ⟨false, false, false⟩).1.x ≤ maxX) ∧
    ((updateEnemyMovementSome spawnEnemyObj initialMoveState ⟨false, false, false⟩).1.x = minX →
      (updateEnemyMovementSome spawnEnemyObj initialMoveState ⟨false, false, false⟩).2.direction
        = 1) :=
  ⟨(positionX_bounded_and_bounces spawnEnemyObj initialMoveState ⟨false, false, false⟩
      (by decide) (by decide)).1,
   ((positionX_bounded_and_bounces spawnEnemyObj initialMoveState ⟨false, false, false⟩
      (by decide) (by decide)).2 rfl rfl).1⟩

/-- C4: a tick entered with `isPaused = true` (and a live pause timer) leaves
`positionX` and `direction` unchanged, decrements `pauseTimer` by exactly one,
clears `isPaused` exactly when the decremented timer reaches zero, and still
runs the crouch evaluation before the pause check: the resulting pose (model
Y, vertical scale, crouch sub-state, tracked parts) is exactly that produced
by `handleCrouching` after the standing-Y pin. -/
theorem paused_tick_spec (e : EnemyObj) (s : MoveState) (r : Rolls)
    (hp : s.isPaused = true) (ht : 1 ≤ s.pauseTimer) :
    (updateEnemyMovementSome e s r).1.x = e.x ∧
    (updateEnemyMovementSome e s r).2.direction = s.direction ∧
    (updateEnemyMovementSome e s r).2.pauseTimer = s.pauseTimer - 1 ∧
    ((updateEnemyMovementSome e s r).2.isPaused = false ↔ s.pauseTimer - 1 = 0) ∧
    poseView (updateEnemyMovementSome e s r) =
      poseView (handleCrouching (pinStandingY e s).1 (pinStandingY e s).2 r.crouchRoll) := by
  obtain ⟨hx, hd, hpp, htt⟩ := preMove_frame e s r.crouchRoll
  simp only [updateEnemyMovementSome, poseView]
  generalize hq : handleCrouching (pinStandingY e s).1 (pinStandingY e s).2 r.crouchRoll = q
    at hx hd hpp htt ⊢
  obtain ⟨e1, s1⟩ := q
  dsimp only at hx hd hpp htt ⊢
  rw [hp] at hpp
  simp only [hpp, if_true]
  split_ifs with hz <;> rw [htt] at hz <;>
    exact ⟨hx, hd, by rw [htt], by simp; omega, rfl⟩

/-- Witness for C4: a roll-free tick on a mid-pause state (timer 30) keeps the
position, drops the timer to 29, and stays paused. -/
theorem paused_tick_spec_witness :
    (updateEnemyMovementSome spawnEnemyObj pausedMoveState ⟨false, false, false⟩).1.x
      = spawnEnemyObj.x ∧
    (updateEnemyMovementSome spawnEnemyObj pausedMoveState ⟨false, false, false⟩).2.pauseTimer
      = pausedMoveState.pauseTimer - 1 ∧
    ((updateEnemyMovementSome spawnEnemyObj pausedMoveState ⟨false, false, false⟩).2.isPaused
        = false ↔ pausedMoveState.pauseTimer - 1 = 0) :=
  ⟨(paused_tick_spec spawnEnemyObj pausedMoveState ⟨false, false, false⟩ rfl (by decide)).1,
   (paused_tick_spec spawnEnemyObj pausedMoveState ⟨false, false, false⟩ rfl (by decide)).2.2.1,
   (paused_tick_spec spawnEnemyObj pausedMoveState ⟨false, false, false⟩ rfl (by decide)).2.2.2.1⟩

theorem restorePart_crouchPart (a : ℚ) (op : Option Part) :
    restorePart (crouchPart a op) = restorePart op := by
  cases op with
  | none => rfl
  | some p =>
    simp only [crouchPart, truthyBase]
    cases hb : p.baseY with
    | none => simp
    | some b =>
      by_cases h0 : b = 0
      · simp [h0]
      · simp [h0, restorePart, hb]

theorem crouchRunOut_timer (e : EnemyObj) (s : MoveState) (tm : ℤ) :
    crouchRunOut e { s with crouchTimer := tm } = crouchRunOut e s := by
  simp [crouchRunOut]

theorem crouchRunOut_maintain (e : EnemyObj) (s : MoveState) :
    crouchRunOut (maintainCrouchState e s).1 (maintainCrouchState e s).2 =
      crouchRunOut e s := by
  simp [crouchRunOut, maintainCrouchState, restorePart_crouchPart]

theorem crouchStep_run (t : ℕ) : ∀ (e : EnemyObj) (s : MoveState),
    s.isCrouching = true → s.crouchTimer = (t : ℤ) + 1 →
    crouchStep^[t + 1] (e, s) = crouchRunOut e s := by
  induction t with
  | zero =>
    intro e s hc htm
    rw [Function.iterate_one]
    simp only [crouchStep, handleCrouching, hc, Bool.not_true, Bool.false_and,
      Bool.false_eq_true, if_false, if_true]
    rw [if_pos (by dsimp only [maintainCrouchState]; omega)]
    simp [stopCrouching, maintainCrouchState, crouchRunOut, restorePart_crouchPart]
    omega
  | succ n ih =>
    intro e s hc htm
    rw [Function.iterate_succ_apply]
    have hstep : crouchStep (e, s) =
        ((maintainCrouchState e s).1,
         { (maintainCrouchState e s).2 with crouchTimer := s.crouchTimer - 1 }) := by
      simp only [crouchStep, handleCrouching, hc, Bool.not_true, Bool.false_and,
        Bool.false_eq_true, if_false, if_true]
      rw [if_neg (by dsimp only [maintainCrouchState]; omega)]
      rfl
    rw [hstep]
    rw [ih (maintainCrouchState e s).1
        { (maintainCrouchState e s).2 with crouchTimer := s.crouchTimer - 1 }
        (by simp [maintainCrouchState, hc])
        (by dsimp only [maintainCrouchState]; push_cast at htm ⊢; omega)]
    rw [crouchRunOut_timer, crouchRunOut_maintain]

theorem crouch_entry (e : EnemyObj) (s : MoveState) (hc : s.isCrouching = false) :
    handleCrouching e s true =
      ((maintainCrouchState (startCrouching e s).1 (startCrouching e s).2).1,
       { (maintainCrouchState (startCrouching e s).1 (startCrouching e s).2).2 with
         crouchTimer := 59 }) := by
  simp only [handleCrouching, hc, Bool.not_false, Bool.true_and, if_true]
  rw [if_pos (by simp [startCrouching, maintainCrouchState])]
  rw [if_neg (by simp [startCrouching, maintainCrouchState, crouchDuration])]
  simp [startCrouching, maintainCrouchState, crouchDuration]

theorem crouchCycle_eq (e : EnemyObj) (s : MoveState) (hc : s.isCrouching = false) :
    crouchCycle e s =
      ({ e with scaleY := s.originalScale, y := initialPositionY },
       { s with isCrouching := false, crouchTimer := 0,
                head := restorePart (recordBase s.head),
                body := restorePart (recordBase s.body),
                weapon := restorePart (recordBase s.weapon) }) := by
  have h1 : (handleCrouching e s true).2.isCrouching = true := by
    rw [crouch_entry e s hc]; rfl
  have h2 : (handleCrouching e s true).2.crouchTimer = (58 : ℤ) + 1 := by
    rw [crouch_entry e s hc]; norm_num
  have hrun := crouchStep_run 58 (handleCrouching e s true).1 (handleCrouching e s true).2 h1 h2
  have e59 : (58 : ℕ) + 1 = 59 := rfl
  rw [e59, Prod.mk.eta] at hrun
  rw [crouchCycle, hrun, crouch_entry e s hc]
  dsimp only
  rw [crouchRunOut_timer, crouchRunOut_maintain]
  simp only [startCrouching]
  rw [crouchRunOut_maintain]
  simp [crouchRunOut]

theorem restore_record_y (op : Option Part) (h : partRestorable op = true) :
    Option.map Part.y (restorePart (recordBase op)) = Option.map Part.y op := by
  cases op with
  | none => rfl
  | some p =>
    cases hb : p.baseY with
    | none => simp [recordBase, restorePart, truthyBase, hb]
    | some b =>
      by_cases h0 : b = 0
      · simp [recordBase, restorePart, truthyBase, hb, h0]
      · have hby : b = p.y := by
          simp [partRestorable, hb, h0] at h
          exact h
        subst hby
        simp [recordBase, restorePart, truthyBase, hb, h0]

/-- C5 (amended): a full crouch lifecycle (entry roll, 60 ticks, exit at
`crouchTimer = 0`) restores the vertical scale to the recorded
`originalScale`, `positionY` to the fixed standing value, and every tracked
part's vertical offset to its recorded base (recording the current offset at
entry when nothing truthy is recorded); these equal the exact pre-crouch
values whenever the pose agrees with its recordings — the scale matches
`originalScale` and every truthy recorded base matches its part's current
offset — as holds in every state the module itself produces. -/
theorem crouch_roundtrip_restores (e : EnemyObj) (s : MoveState)
    (hc : s.isCrouching = false)
    (hs : e.scaleY = s.originalScale)
    (hh : partRestorable s.head = true)
    (hb : partRestorable s.body = true)
    (hw : partRestorable s.weapon = true) :
    (crouchCycle e s).1.scaleY = e.scaleY ∧
    (crouchCycle e s).1.y = initialPositionY ∧
    (crouchCycle e s).2.isCrouching = false ∧
    Option.map Part.y (crouchCycle e s).2.head = Option.map Part.y s.head ∧
    Option.map Part.y (crouchCycle e s).2.body = Option.map Part.y s.body ∧
    Option.map Part.y (crouchCycle e s).2.weapon = Option.map Part.y s.weapon := by
  rw [crouchCycle_eq e s hc]
  exact ⟨hs.symm, rfl, rfl, restore_record_y s.head hh, restore_record_y s.body hb,
    restore_record_y s.weapon hw⟩

/-- Witness for C5 (amended): a consistent pose (fresh head, torso recorded at
its current offset, weapon with a recorded zero base) round-trips exactly. -/
theorem crouch_roundtrip_restores_witness :
    (crouchCycle spawnEnemyObj consistentPose).1.scaleY = spawnEnemyObj.scaleY ∧
    Option.map Part.y (crouchCycle spawnEnemyObj consistentPose).2.head
      = Option.map Part.y consistentPose.head ∧
    Option.map Part.y (crouchCycle spawnEnemyObj consistentPose).2.body
      = Option.map Part.y consistentPose.body ∧
    Option.map Part.y (crouchCycle spawnEnemyObj consistentPose).2.weapon
      = Option.map Part.y consistentPose.weapon :=
  ⟨(crouch_roundtrip_restores spawnEnemyObj consistentPose rfl rfl rfl rfl rfl).1,
   (crouch_roundtrip_restores spawnEnemyObj consistentPose rfl rfl rfl rfl rfl).2.2.2.1,
   (crouch_roundtrip_restores spawnEnemyObj consistentPose rfl rfl rfl rfl rfl).2.2.2.2.1,
   (crouch_roundtrip_restores spawnEnemyObj consistentPose rfl rfl rfl rfl rfl).2.2.2.2.2⟩

set_option maxRecDepth 10000 in
/-- C5 counterexample: a pose whose head has a truthy recorded base (3)
different from its current vertical offset (5) does not round-trip: the full
crouch lifecycle leaves the head at offset 3, not the pre-crouch 5 — the
restoration targets the recorded base, not the literal pre-crouch value. -/
theorem crouch_roundtrip_counterexample :
    Option.map Part.y mismatchedPose.head = some 5 ∧
    mismatchedPose.isCrouching = false ∧
    Option.map Part.y (crouchCycle spawnEnemyObj mismatchedPose).2.head = some 3 := by
  decide

/-- C9 (code divergence): `initEnemyMovement`, the locomotion side of a
round-start reset, does not restore the locomotion sub-state: called on a
state captured mid-crouch and mid-pause it leaves `direction`, `isCrouching`,
`crouchTimer`, `isPaused` and `pauseTimer` exactly as they were — the stale
countdowns survive into the next encounter, unlike the fresh module state
(direction -1, no crouch, no pause, both timers 0).  The health-side
`resetEnemyDamageSystem` does restore all four health fields. -/
theorem initEnemyMovement_keeps_stale_timers :
    ((initEnemyMovement (some bareEnemyModel) staleMoveState).2.direction = 1 ∧
     (initEnemyMovement (some bareEnemyModel) staleMoveState).2.isCrouching = true ∧
     (initEnemyMovement (some bareEnemyModel) staleMoveState).2.crouchTimer = 10 ∧
     (initEnemyMovement (some bareEnemyModel) staleMoveState).2.isPaused = true ∧
     (initEnemyMovement (some bareEnemyModel) staleMoveState).2.pauseTimer = 30) ∧
    (initialMoveState.direction = -1 ∧ initialMoveState.isCrouching = false ∧
     initialMoveState.crouchTimer = 0 ∧ initialMoveState.isPaused = false ∧
     initialMoveState.pauseTimer = 0) ∧
    (EnemyDamage.resetEnemyDamageSystem
        { currentHealth := 3, totalDamageDealt := 900, linesCompleted := 20,
          lineCount := 35, isDefeated := true } =
      { currentHealth := 1000, totalDamageDealt := 0, linesCompleted := 0,
        lineCount := 35, isDefeated := false }) := by
  decide

end EnemyMovement

/-! ## Theorems: fire-origin & height arbitrator -/

namespace BulletOrigin

/-- C2: `canFireAtHeight` classifies a height as high iff
`height ≥ highThreshold`; the first call ever returns true and records
classification and timestamp; a call matching the recorded classification
returns true and refreshes only the timestamp; a differing call is allowed
(updating classification and timestamp) iff the cooldown has elapsed since
`lastShotTime`, and otherwise returns false leaving the state unchanged. -/
theorem canFireAtHeight_spec (st : OriginState) (height : ℚ) (now : ℤ) :
    (st.lastShotHeight = none →
      canFireAtHeight st height now =
        (true, { st with lastShotHeight := some (decide (height ≥ highThreshold)),
                         lastShotTime := now }) ∧
      ((canFireAtHeight st height now).2.lastShotHeight = some true ↔
        height ≥ highThreshold)) ∧
    (∀ w : Bool, st.lastShotHeight = some w →
      (decide (height ≥ highThreshold) = w →
        canFireAtHeight st height now = (true, { st with lastShotTime := now })) ∧
      (decide (height ≥ highThreshold) ≠ w →
        (now - st.lastShotTime ≥ shotCooldown →
          canFireAtHeight st height now =
            (true, { st with lastShotHeight := some (decide (height ≥ highThreshold)),
                             lastShotTime := now }) ∧
          ((canFireAtHeight st height now).2.lastShotHeight = some true ↔
            height ≥ highThreshold)) ∧
        (¬ now - st.lastShotTime ≥ shotCooldown →
          canFireAtHeight st height now = (false, st)))) := by
  constructor
  · intro hnone
    constructor
    · simp [canFireAtHeight, hnone]
    · simp [canFireAtHeight, hnone]
  · intro w hsome
    refine ⟨?_, ?_⟩
    · intro heq
      simp [canFireAtHeight, hsome, heq]
    · intro hne
      constructor
      · intro hcool
        constructor
        · simp [canFireAtHeight, hsome, hne, hcool]
        · simp [canFireAtHeight, hsome, hne, hcool]
      · intro hcool
        simp [canFireAtHeight, hsome, hne, hcool]

/-- Witness for C2: on a fresh state a height-5 shot is allowed and recorded
as high; from a high record at time 100, a height-1 shot at time 200 is
rejected with the state unchanged, while the same shot at time 1100 is
allowed and re-records the classification as low. -/
theorem canFireAtHeight_spec_witness :
    canFireAtHeight freshOriginState 5 100 =
      (true, { freshOriginState with lastShotHeight := some true, lastShotTime := 100 }) ∧
    canFireAtHeight highOriginState 1 200 = (false, highOriginState) ∧
    canFireAtHeight highOriginState 1 1100 =
      (true, { highOriginState with lastShotHeight := some false, lastShotTime := 1100 }) := by
  have h1 := ((canFireAtHeight_spec freshOriginState 5 100).1 rfl).1
  have h2 := (((canFireAtHeight_spec highOriginState 1 200).2 true rfl).2 (by decide)).2 (by decide)
  have h3 := ((((canFireAtHeight_spec highOriginState 1 1100).2 true rfl).2 (by decide)).1
    (by decide)).1
  refine ⟨by rw [h1]; decide, by rw [h2], by rw [h3]; decide⟩

/-- C6: when the enemy pose is unavailable `updateBulletOriginPosition`
returns the cached origin and leaves the state unchanged (it is total, so it
never fails); when the pose is available the computed origin is stored in
`lastKnownPosition`, so a subsequent pose-unavailable call returns exactly
that previous result. -/
theorem updateBulletOriginPosition_cache (st : OriginState)
    (em em2 : Option MovementView) (p : Vec3) :
    (updateBulletOriginPosition none em st = (st.lastKnownPosition, st)) ∧
    ((updateBulletOriginPosition (some p) em st).2.lastKnownPosition =
      (updateBulletOriginPosition (some p) em st).1) ∧
    (updateBulletOriginPosition none em2 (updateBulletOriginPosition (some p) em st).2 =
      ((updateBulletOriginPosition (some p) em st).1,
       (updateBulletOriginPosition (some p) em st).2)) :=
  ⟨rfl, rfl, rfl⟩

end BulletOrigin

end Synthpocalypse
